import Mathlib

/-
Verification of the test runner in src/alg/tester.h (namespace
tenacitas::lib::tester::alg). The runner is the struct test: it is
constructed from argc/argv, resolves an execution mode with the help of an
external options parser, and exposes run<t_test_class>(name), which either
prints the description of the test, executes it, or does nothing.

Output model: every completed line written by the program is one event.
A statement such as cout << a << b << endl that writes an embedded
newline produces one event per completed line, in order. Events also
record, as markers, the default construction of a test object and the
call of its operator() (invoke), so that claims about "invoke is never
called" are statable. Exceptions are modelled with Except String, the
string being the what() message of the std::exception.
-/

/-- The single-quote character, used by several output messages of the
source (written via its code point). -/
def squote : String := (Char.ofNat 39).toString

/-- Modelled from the spec: the options collaborator
(tenacitas.lib.program/alg/options.h) is not part of this repository.
Per the spec contract it offers get_bool_param (presence test for
zero-value flags) and get_set_param (optional value list between braces).
Both are consumed as pure queries on the parsed state. -/
structure options where
  get_bool_param : String → Bool
  get_set_param : String → Option (List String)

/-- Modelled from the spec: the contents of the options object when parse
has failed are never consulted (the runner stays idle), so they are
represented by an inert default. -/
def options.defaultState : options :=
  { get_bool_param := fun _ => false, get_set_param := fun _ => none }

/-- A test class: default construction (which may throw), the static
desc(), and operator()(const options &) returning bool (either of which
may throw). This is the duck-typed capability set t_test_class of the
source, with each potentially throwing operation an Except value. -/
structure TestClass where
  ctor : Except String Unit
  desc : Except String String
  invoke : options → Except String Bool

/-- One observable event: a completed line on standard output, a completed
line on the diagnostic stream (cerr), or a marker that the test object was
default-constructed or its operator() was called. -/
inductive Ev where
  | out (line : String)
  | err (line : String)
  | ctorCall
  | invokeCall
deriving DecidableEq

/-- Insertion into a sorted duplicate-free list, modelling insertion into
the std::set of strings m_tests_to_exec. -/
def setInsert (x : String) : List String → List String
  | [] => [x]
  | y :: ys =>
    if x < y then x :: y :: ys
    else if x == y then y :: ys
    else y :: setInsert x ys

/-- The std::set built from a list of elements, as in
m_tests_to_exec.insert(begin, end). -/
def setOfList (l : List String) : List String :=
  l.foldl (fun s x => setInsert x s) []

/-- The line printed by the catch handlers of the constructor and of run
(source lines 124 and 179). -/
def exceptionLine (m : String) : String := "EXCEPTION " ++ squote ++ m ++ squote

/-- The line printed by the catch handler of exec (source line 205). -/
def errorLine (p_test_name m : String) : String :=
  "ERROR for " ++ p_test_name ++ " " ++ squote ++ m ++ squote

/-- The opening diagnostic banner line of exec (source line 197). The
statement writes a leading newline first, which the trace records as a
separate blank cerr line. -/
def openBanner (p_test_name d : String) : String :=
  "############ -> " ++ p_test_name ++ " - " ++ d

/-- The partial opening-banner text of exec that is already written to
cerr when desc() throws in the middle of the banner statement: under the
left-to-right sequencing of chained insertions (the header uses
std::optional, hence C++17), the leading newline, the name and the dash
separator are written before desc() is evaluated (source lines 197 and
198). -/
def openBannerPartial (p_test_name : String) : String :=
  "############ -> " ++ p_test_name ++ " - "

/-- The closing diagnostic banner line of exec (source line 207). -/
def closeBanner (p_test_name : String) : String :=
  "############ <- " ++ p_test_name

/-- The terminal outcome line of exec when invoke returns (source line
203). -/
def outcomeLine (p_test_name : String) (result : Bool) : String :=
  p_test_name ++ (if result then " SUCCESS" else " FAIL")

/-- The description line of run in describe mode (source line 164); the
statement also writes a blank separator line. -/
def descLine (p_test_name d : String) : String := p_test_name ++ ": " ++ d

/-- The runner state: the members of struct test (source lines 245 to
265). m_tests_to_exec is the std::set as a sorted duplicate-free list. -/
structure test where
  m_pgm_name : String
  m_execute_tests : Bool
  m_print_desc : Bool
  m_argc : Int
  m_argv : List String
  m_tests_to_exec : List String
  m_options : options

/-- The fixed how-to block printed when no mode was selected (source
lines 211 to 243), one event per line of the single cout statement. -/
def print_mini_howto (pgm : String) : List Ev :=
  [Ev.out "Syntax:",
   Ev.out ("\t" ++ squote ++ pgm ++ " --desc" ++ squote ++
     " will display a description of the test"),
   Ev.out ("\t" ++ squote ++ pgm ++ " --exec" ++ squote ++
     " will execute the all the tests"),
   Ev.out ("\t" ++ squote ++ pgm ++
     " --exec \x7b <test-name-1> <test-name-2> ...\x7d" ++ squote ++
     " will execute tests defined between " ++ squote ++ "\x7b" ++ squote ++
     " and " ++ squote ++ "\x7d" ++ squote),
   Ev.out ("\t" ++ squote ++ pgm ++ squote ++ " displays this message"),
   Ev.out "",
   Ev.out "For the programmers: ",
   Ev.out ("\t1 - Programmers should use " ++ squote ++ "std::cerr" ++ squote ++
     " to print messages"),
   Ev.out ("\t2 - If do not want your " ++ squote ++ "std::cerr" ++ squote ++
     " messages to be displayed, use"),
   Ev.out ("\t" ++ squote ++ pgm ++ " --exec 2> /dev/null" ++ squote ++
     " to execute the tests"),
   Ev.out "",
   Ev.out "Output:",
   Ev.out "\tIf the test passes, the message \"SUCCESS for <name>\" will be printed",
   Ev.out "\tIf the test does not pass, the message \"FAIL for <name>\" will be printed",
   Ev.out ("\tIf an error occurr while executing the test , the message " ++
     "\"ERROR for <name> <desc>\" will be printed"),
   Ev.out "\tIf an exception occurrs, the message \"EXCEPTION <description>\" will be printed"]

/-- The constructor test::test (source lines 95 to 127). It stores argc
and argv, then reads m_argv[0] unconditionally, outside the try block:
with an empty argument vector that read is out of bounds, returned here
as none. Inside the try block it consults the parse outcome of the
options collaborator (parseResult, covering the mandatory-option check),
resolves the mode in the fixed order exec-bool, desc-bool, exec-set, and
prints the how-to when no mode was selected; a parse exception is caught,
printed as an EXCEPTION line, and leaves both mode flags false. argc is
taken as the length of argv, per the contract of main. -/
def test.construct (argv : List String) (parseResult : Except String options) :
    Option (test × List Ev) :=
  match argv with
  | [] => none
  | pgm :: rest =>
    some (match parseResult with
      | Except.error msg =>
        ({ m_pgm_name := pgm, m_execute_tests := false, m_print_desc := false,
           m_argc := ((pgm :: rest).length : Int), m_argv := pgm :: rest,
           m_tests_to_exec := [], m_options := options.defaultState },
         [Ev.out (exceptionLine msg)])
      | Except.ok opts =>
        let st0 : test :=
          { m_pgm_name := pgm, m_execute_tests := false, m_print_desc := false,
            m_argc := ((pgm :: rest).length : Int), m_argv := pgm :: rest,
            m_tests_to_exec := [], m_options := opts }
        let st : test :=
          if opts.get_bool_param "exec" then
            { st0 with m_execute_tests := true }
          else if opts.get_bool_param "desc" then
            { st0 with m_print_desc := true }
          else
            match opts.get_set_param "exec" with
            | some l =>
              { st0 with m_execute_tests := true, m_tests_to_exec := setOfList l }
            | none => st0
        if !st.m_execute_tests && !st.m_print_desc then
          (st, print_mini_howto pgm)
        else (st, []))

/-- The private member test::exec (source lines 192 to 208): inside the
try block the test object is default-constructed, the opening banner is
emitted to cerr (its statement writes a leading newline, then the banner
text, and it calls desc() after the name and the dash separator are
already written, per the left-to-right sequencing of C++17), operator()
is invoked, and the outcome line is printed to cout; any std::exception
is caught and printed as an ERROR line on cout; the closing text goes to
cerr after the catch handler, hence in every case. When construction
throws, the banner statement never ran and the closing text is a line of
its own; when desc() throws, the blank separator line is already
complete, the partial opening text is dangling on cerr, and the closing
text completes that same physical line. -/
def test.exec (self : test) (T : TestClass) (p_test_name : String) : List Ev :=
  match T.ctor with
  | Except.error m =>
    [Ev.ctorCall, Ev.out (errorLine p_test_name m),
     Ev.err (closeBanner p_test_name)]
  | Except.ok _ =>
    match T.desc with
    | Except.error m =>
      [Ev.ctorCall, Ev.err "", Ev.out (errorLine p_test_name m),
       Ev.err (openBannerPartial p_test_name ++ closeBanner p_test_name)]
    | Except.ok d =>
      [Ev.ctorCall, Ev.err "", Ev.err (openBanner p_test_name d)] ++
      (match T.invoke self.m_options with
       | Except.error m => [Ev.invokeCall, Ev.out (errorLine p_test_name m)]
       | Except.ok result => [Ev.invokeCall, Ev.out (outcomeLine p_test_name result)]) ++
      [Ev.err (closeBanner p_test_name)]

/-- The public member test::run (source lines 159 to 182): in describe
mode it prints the description line plus a blank separator and returns;
a throw from desc() there is caught by the catch handler of run, whose
EXCEPTION text completes the line that already carries the name and the
colon, written before desc() was evaluated (C++17 left-to-right
sequencing of source line 164). In execute mode it calls exec when the
selection set is empty or contains the name; otherwise it does nothing.
The state is returned unchanged alongside the produced events (the
source method assigns no member). -/
def test.run (self : test) (T : TestClass) (p_test_name : String) :
    test × List Ev :=
  if self.m_print_desc then
    match T.desc with
    | Except.ok d => (self, [Ev.out (descLine p_test_name d), Ev.out ""])
    | Except.error m =>
      (self, [Ev.out (p_test_name ++ ": " ++ exceptionLine m)])
  else if self.m_execute_tests then
    if !self.m_tests_to_exec.isEmpty then
      if self.m_tests_to_exec.contains p_test_name then
        (self, self.exec T p_test_name)
      else (self, [])
    else (self, self.exec T p_test_name)
  else (self, [])

/-- Running a whole registration list in order, concatenating the events
of each run call, as the example main does with one run call per
registered test. -/
def test.runList (self : test) : List (String × TestClass) → List Ev
  | [] => []
  | (n, T) :: rest => (self.run T n).2 ++ test.runList self rest

/-- The lines a trace writes to standard output, in order. -/
def outLines : List Ev → List String
  | [] => []
  | Ev.out s :: rest => s :: outLines rest
  | Ev.err _ :: rest => outLines rest
  | Ev.ctorCall :: rest => outLines rest
  | Ev.invokeCall :: rest => outLines rest

/-- The lines a trace writes to the diagnostic stream (cerr), in order. -/
def errLines : List Ev → List String
  | [] => []
  | Ev.err s :: rest => s :: errLines rest
  | Ev.out _ :: rest => errLines rest
  | Ev.ctorCall :: rest => errLines rest
  | Ev.invokeCall :: rest => errLines rest

/-- A concrete always-true test, after test_ok of src/tst/main.cpp. -/
def tcOK : TestClass :=
  { ctor := Except.ok (), desc := Except.ok "an ok test",
    invoke := fun _ => Except.ok true }

/-- A concrete test whose invoke returns false. -/
def tcFalse : TestClass :=
  { ctor := Except.ok (), desc := Except.ok "a failing test",
    invoke := fun _ => Except.ok false }

/-- A concrete test whose invoke throws with message boom. -/
def tcBoom : TestClass :=
  { ctor := Except.ok (), desc := Except.ok "a throwing test",
    invoke := fun _ => Except.error "boom" }

/-- A concrete test whose default construction throws. -/
def tcCtorThrow : TestClass :=
  { ctor := Except.error "ctor failed", desc := Except.ok "never shown",
    invoke := fun _ => Except.ok true }

/-- A concrete test whose desc() throws. -/
def tcDescThrow : TestClass :=
  { ctor := Except.ok (), desc := Except.error "desc failed",
    invoke := fun _ => Except.ok true }

/-- A parse outcome whose boolean exec flag is present. -/
def optsExecAll : options :=
  { get_bool_param := fun n => n == "exec", get_set_param := fun _ => none }

/-- A parse outcome whose boolean desc flag is present. -/
def optsDesc : options :=
  { get_bool_param := fun n => n == "desc", get_set_param := fun _ => none }

/-- A parse outcome carrying a set-valued exec flag with elements a and
c. -/
def optsExecSel : options :=
  { get_bool_param := fun _ => false,
    get_set_param := fun n => if n == "exec" then some ["a", "c"] else none }

/-- Helper: run never changes the runner state, whatever the branch. -/
theorem test.run_fst (self : test) (T : TestClass) (n : String) :
    (self.run T n).1 = self := by
  unfold test.run
  repeat' split
  all_goals rfl

/-- A concrete runner state in execute-all mode, as produced by the
constructor for a boolean exec flag. -/
def stExecAll : test :=
  { m_pgm_name := "pgm", m_execute_tests := true, m_print_desc := false,
    m_argc := 1, m_argv := ["pgm"], m_tests_to_exec := [],
    m_options := optsExecAll }

/-- A concrete runner state in describe mode. -/
def stDescribe : test :=
  { m_pgm_name := "pgm", m_execute_tests := false, m_print_desc := true,
    m_argc := 1, m_argv := ["pgm"], m_tests_to_exec := [],
    m_options := optsDesc }

/-- A concrete runner state in execute-selected mode with selection a, c. -/
def stExecSel : test :=
  { m_pgm_name := "pgm", m_execute_tests := true, m_print_desc := false,
    m_argc := 1, m_argv := ["pgm"], m_tests_to_exec := setOfList ["a", "c"],
    m_options := optsExecSel }

/-- A concrete idle runner state (both mode flags false). -/
def stIdle : test :=
  { m_pgm_name := "pgm", m_execute_tests := false, m_print_desc := false,
    m_argc := 1, m_argv := ["pgm"], m_tests_to_exec := [],
    m_options := options.defaultState }

/-- Claim C9: the constructor reads argv[0] unconditionally, before and
outside the try block, so it is out of bounds for an empty argument
vector whatever the parse outcome (even one that would throw); with the
precondition of a nonempty argument vector the out-of-bounds branch is
unreachable and construction always yields a runner. -/
theorem c9_argv_zero_read (parseResult : Except String options) :
    test.construct [] parseResult = none ∧
    ∀ argv : List String, argv ≠ [] →
      ∃ r, test.construct argv parseResult = some r := by
  constructor
  · rfl
  · intro argv hne
    cases argv with
    | nil => exact absurd rfl hne
    | cons pgm rest => exact ⟨_, rfl⟩

/-- Witness for C9 at a concrete input. -/
theorem c9_argv_zero_read_witness :
    test.construct [] (Except.error "missing option") = none ∧
    ∃ r, test.construct ["pgm"] (Except.error "missing option") = some r :=
  ⟨(c9_argv_zero_read (Except.error "missing option")).1,
   (c9_argv_zero_read (Except.error "missing option")).2 ["pgm"]
     (List.cons_ne_nil "pgm" [])⟩

/-- Counterexample to claim C10 as stated: for a test whose desc()
throws, the closing banner is not printed as a line of its own. Under
the left-to-right sequencing of C++17 the blank separator and the
partial opening text are on cerr before desc() throws, so the closing
text completes that dangling line; the resulting trace holds the merged
line and no standalone closing banner line. -/
theorem c10_desc_throw_counterexample :
    stExecAll.exec tcDescThrow "u" =
      [Ev.ctorCall, Ev.err "", Ev.out (errorLine "u" "desc failed"),
       Ev.err (openBannerPartial "u" ++ closeBanner "u")] ∧
    Ev.err (closeBanner "u") ∉ stExecAll.exec tcDescThrow "u" :=
  ⟨rfl, by decide⟩

/-- Claim C10 (amended): in exec the test object is default-constructed
inside the try block before the opening banner. If the construction
throws, the outcome is the ERROR line on standard output, invoke is
never called, nothing is written to cerr beforehand, and the closing
banner is still printed as its own diagnostic line, because it lies
after the catch handler. If instead the desc() call feeding the banner
throws, invoke is still never called and the same ERROR outcome is
printed, but the blank separator and the partial opening text are
already on the diagnostic stream, and the closing text completes that
same line instead of forming a standalone closing banner line. -/
theorem c10_throw_paths (self : test) (p_test_name m : String) (T : TestClass) :
    (T.ctor = Except.error m →
      self.exec T p_test_name =
        [Ev.ctorCall, Ev.out (errorLine p_test_name m),
         Ev.err (closeBanner p_test_name)]) ∧
    (T.ctor = Except.ok () → T.desc = Except.error m →
      self.exec T p_test_name =
        [Ev.ctorCall, Ev.err "", Ev.out (errorLine p_test_name m),
         Ev.err (openBannerPartial p_test_name ++ closeBanner p_test_name)]) := by
  constructor
  · intro hc
    simp [test.exec, hc]
  · intro hc hd
    simp [test.exec, hc, hd]

/-- Witness for the amended C10 at concrete inputs: a throwing
constructor and a throwing desc(). -/
theorem c10_throw_paths_witness :
    stExecAll.exec tcCtorThrow "t" =
      [Ev.ctorCall, Ev.out (errorLine "t" "ctor failed"),
       Ev.err (closeBanner "t")] ∧
    stExecAll.exec tcDescThrow "u" =
      [Ev.ctorCall, Ev.err "", Ev.out (errorLine "u" "desc failed"),
       Ev.err (openBannerPartial "u" ++ closeBanner "u")] :=
  ⟨(c10_throw_paths stExecAll "t" "ctor failed" tcCtorThrow).1 rfl,
   (c10_throw_paths stExecAll "u" "desc failed" tcDescThrow).2 rfl rfl⟩

/-- Claim C1: when the runner is in execute mode, run executes the test
exactly when the selection set is empty or contains the name; when the
name is not in a nonempty selection set the call produces no event, and
when the runner is idle the call produces no event. -/
theorem c1_run_selection (self : test) (T : TestClass) (p_test_name : String)
    (hdesc : self.m_print_desc = false) :
    (self.m_execute_tests = true →
      self.run T p_test_name =
        (self,
          if self.m_tests_to_exec.isEmpty ||
             self.m_tests_to_exec.contains p_test_name
          then self.exec T p_test_name else [])) ∧
    (self.m_execute_tests = false →
      self.run T p_test_name = (self, [])) := by
  constructor
  · intro hexec
    by_cases he : self.m_tests_to_exec.isEmpty <;>
      by_cases hcont : self.m_tests_to_exec.contains p_test_name <;>
      simp [test.run, hdesc, hexec, he, hcont] <;>
      split <;> rfl
  · intro hexec
    simp [test.run, hdesc, hexec]

/-- Witness for C1 at concrete inputs: execute-selected mode with a
selected name, with an unselected name, and an idle runner. -/
theorem c1_run_selection_witness :
    stExecSel.run tcOK "a" =
      (stExecSel,
        if stExecSel.m_tests_to_exec.isEmpty ||
           stExecSel.m_tests_to_exec.contains "a"
        then stExecSel.exec tcOK "a" else []) ∧
    stExecSel.run tcOK "b" =
      (stExecSel,
        if stExecSel.m_tests_to_exec.isEmpty ||
           stExecSel.m_tests_to_exec.contains "b"
        then stExecSel.exec tcOK "b" else []) ∧
    stIdle.run tcOK "a" = (stIdle, []) :=
  ⟨(c1_run_selection stExecSel tcOK "a" rfl).1 rfl,
   (c1_run_selection stExecSel tcOK "b" rfl).1 rfl,
   (c1_run_selection stIdle tcOK "a" rfl).2 rfl⟩

/-- Helper: the ERROR line is distinct from both terminal outcome lines,
whatever the name and the message, by a length count. -/
theorem errorLine_ne_outcomeLine (p_test_name m : String) (result : Bool) :
    errorLine p_test_name m ≠ outcomeLine p_test_name result := by
  intro heq
  have hlen := congrArg String.length heq
  have h10 : ("ERROR for ").length = 10 := rfl
  have hsp : (" ").length = 1 := rfl
  have hq : squote.length = 1 := rfl
  have h8 : (" SUCCESS").length = 8 := rfl
  have h5 : (" FAIL").length = 5 := rfl
  cases result <;>
    simp [errorLine, outcomeLine, String.length_append, h10, hsp, hq, h8, h5]
      at hlen <;>
    omega

/-- Claim C2: every executed test prints exactly one terminal outcome line
on standard output, determined by the result of invoke: true prints the
SUCCESS line, false prints the FAIL line, and a thrown exception with
message m prints the ERROR line, an outcome distinct from both. -/
theorem c2_outcome_lines (self : test) (p_test_name d : String) (T : TestClass)
    (hctor : T.ctor = Except.ok ()) (hd : T.desc = Except.ok d) :
    (T.invoke self.m_options = Except.ok true →
      outLines (self.exec T p_test_name) = [p_test_name ++ " SUCCESS"]) ∧
    (T.invoke self.m_options = Except.ok false →
      outLines (self.exec T p_test_name) = [p_test_name ++ " FAIL"]) ∧
    (∀ m, T.invoke self.m_options = Except.error m →
      outLines (self.exec T p_test_name) =
        ["ERROR for " ++ p_test_name ++ " " ++ squote ++ m ++ squote]) ∧
    (∀ m result, errorLine p_test_name m ≠ outcomeLine p_test_name result) := by
  refine ⟨?_, ?_, ?_, fun m result => errorLine_ne_outcomeLine p_test_name m result⟩
  · intro hi
    simp [test.exec, hctor, hd, hi, outLines, outcomeLine]
  · intro hi
    simp [test.exec, hctor, hd, hi, outLines, outcomeLine]
  · intro m hi
    simp [test.exec, hctor, hd, hi, outLines, errorLine]

/-- Witness for C2 at concrete inputs: an invoke returning true, one
returning false, and one throwing with message boom. -/
theorem c2_outcome_lines_witness :
    outLines (stExecAll.exec tcOK "test_ok") = ["test_ok SUCCESS"] ∧
    outLines (stExecAll.exec tcFalse "test_fail") = ["test_fail FAIL"] ∧
    outLines (stExecAll.exec tcBoom "test_error") =
      ["ERROR for test_error " ++ squote ++ "boom" ++ squote] ∧
    errorLine "test_error" "boom" ≠ outcomeLine "test_error" true :=
  ⟨(c2_outcome_lines stExecAll "test_ok" "an ok test" tcOK rfl rfl).1 rfl,
   (c2_outcome_lines stExecAll "test_fail" "a failing test" tcFalse rfl rfl).2.1 rfl,
   (c2_outcome_lines stExecAll "test_error" "a throwing test" tcBoom rfl rfl).2.2.1 "boom" rfl,
   (c2_outcome_lines stExecAll "test_error" "a throwing test" tcBoom rfl rfl).2.2.2 "boom" true⟩

/-- Claim C8: when construction and desc() succeed, the execution step
brackets the test with the two banner lines on the diagnostic stream and
writes nothing else there beyond the blank separator of the opening
statement: the opening banner precedes the invoke call, the closing
banner follows the outcome line, and the outcome line itself is on
standard output. -/
theorem c8_banner_bracketing (self : test) (p_test_name d : String)
    (T : TestClass)
    (hctor : T.ctor = Except.ok ()) (hd : T.desc = Except.ok d) :
    (∃ s, self.exec T p_test_name =
      [Ev.ctorCall, Ev.err "", Ev.err (openBanner p_test_name d),
       Ev.invokeCall, Ev.out s, Ev.err (closeBanner p_test_name)]) ∧
    errLines (self.exec T p_test_name) =
      ["", openBanner p_test_name d, closeBanner p_test_name] := by
  cases hi : T.invoke self.m_options with
  | error m =>
    refine ⟨⟨errorLine p_test_name m, ?_⟩, ?_⟩ <;>
      simp [test.exec, hctor, hd, hi, errLines]
  | ok result =>
    refine ⟨⟨outcomeLine p_test_name result, ?_⟩, ?_⟩ <;>
      simp [test.exec, hctor, hd, hi, errLines]

/-- Witness for C8 at a concrete input. -/
theorem c8_banner_bracketing_witness :
    (∃ s, stExecAll.exec tcOK "test_ok" =
      [Ev.ctorCall, Ev.err "", Ev.err (openBanner "test_ok" "an ok test"),
       Ev.invokeCall, Ev.out s, Ev.err (closeBanner "test_ok")]) ∧
    errLines (stExecAll.exec tcOK "test_ok") =
      ["", openBanner "test_ok" "an ok test", closeBanner "test_ok"] :=
  c8_banner_bracketing stExecAll "test_ok" "an ok test" tcOK rfl rfl

/-- Claim C5: when parsing fails at construction, the exception is caught,
exactly the EXCEPTION line is printed, and the runner is left with both
mode flags false, so that every subsequent run call is a no-op, whatever
the arguments were. -/
theorem c5_parse_failure (pgm msg : String) (rest : List String) :
    ∃ st : test,
      test.construct (pgm :: rest) (Except.error msg) =
        some (st, [Ev.out (exceptionLine msg)]) ∧
      st.m_execute_tests = false ∧ st.m_print_desc = false ∧
      ∀ T p_test_name, st.run T p_test_name = (st, []) := by
  refine ⟨_, rfl, rfl, rfl, ?_⟩
  intro T p_test_name
  simp [test.run]

/-- Claim C6: no exception escapes a run call; each failure mode is
contained in exec and converted to a printed ERROR line, and the events
of a batch are the concatenation of the events of each run call, so one
test can never prevent the execution of subsequent tests. -/
theorem c6_failure_isolation (self : test) (pre post : List (String × TestClass))
    (p_test_name : String) (T : TestClass) :
    (test.runList self (pre ++ (p_test_name, T) :: post) =
      test.runList self pre ++ (self.run T p_test_name).2 ++
        test.runList self post) ∧
    (∀ m d, T.ctor = Except.ok () → T.desc = Except.ok d →
      T.invoke self.m_options = Except.error m →
      Ev.out (errorLine p_test_name m) ∈ self.exec T p_test_name) := by
  constructor
  · induction pre with
    | nil => simp [test.runList]
    | cons p ps ih =>
      cases p with
      | mk n S => simp [test.runList, ih]
  · intro m d hc hd hi
    simp [test.exec, hc, hd, hi]

/-- Witness for C6 at a concrete input: a throwing test between two
other tests. -/
theorem c6_failure_isolation_witness :
    (test.runList stExecAll
        ([("test_ok", tcOK)] ++ ("test_error", tcBoom) :: [("test_fail", tcFalse)]) =
      test.runList stExecAll [("test_ok", tcOK)] ++
        (stExecAll.run tcBoom "test_error").2 ++
        test.runList stExecAll [("test_fail", tcFalse)]) ∧
    Ev.out (errorLine "test_error" "boom") ∈ stExecAll.exec tcBoom "test_error" :=
  ⟨(c6_failure_isolation stExecAll [("test_ok", tcOK)] [("test_fail", tcFalse)]
      "test_error" tcBoom).1,
   (c6_failure_isolation stExecAll [("test_ok", tcOK)] [("test_fail", tcFalse)]
      "test_error" tcBoom).2 "boom" "a throwing test" rfl rfl rfl⟩

/-- Claim C3: mode resolution at construction checks the flags in a fixed
order: a boolean exec flag sets execute mode with an empty selection,
whatever the desc flag says; otherwise a boolean desc flag sets describe
mode; otherwise a set-valued exec flag sets execute mode and fills the
selection set with its elements. -/
theorem c3_mode_resolution (pgm : String) (rest : List String) (opts : options) :
    (opts.get_bool_param "exec" = true →
      test.construct (pgm :: rest) (Except.ok opts) =
        some ({ m_pgm_name := pgm, m_execute_tests := true, m_print_desc := false,
                m_argc := ((pgm :: rest).length : Int), m_argv := pgm :: rest,
                m_tests_to_exec := [], m_options := opts }, [])) ∧
    (opts.get_bool_param "exec" = false → opts.get_bool_param "desc" = true →
      test.construct (pgm :: rest) (Except.ok opts) =
        some ({ m_pgm_name := pgm, m_execute_tests := false, m_print_desc := true,
                m_argc := ((pgm :: rest).length : Int), m_argv := pgm :: rest,
                m_tests_to_exec := [], m_options := opts }, [])) ∧
    (∀ l, opts.get_bool_param "exec" = false → opts.get_bool_param "desc" = false →
      opts.get_set_param "exec" = some l →
      test.construct (pgm :: rest) (Except.ok opts) =
        some ({ m_pgm_name := pgm, m_execute_tests := true, m_print_desc := false,
                m_argc := ((pgm :: rest).length : Int), m_argv := pgm :: rest,
                m_tests_to_exec := setOfList l, m_options := opts }, [])) := by
  refine ⟨?_, ?_, ?_⟩
  · intro h1
    simp [test.construct, h1]
  · intro h1 h2
    simp [test.construct, h1, h2]
  · intro l h1 h2 h3
    simp [test.construct, h1, h2, h3]

/-- Witness for C3 at concrete parse outcomes: a boolean exec flag, a
boolean desc flag, and a set-valued exec flag with elements a and c. -/
theorem c3_mode_resolution_witness :
    test.construct ["pgm"] (Except.ok optsExecAll) = some (stExecAll, []) ∧
    test.construct ["pgm"] (Except.ok optsDesc) = some (stDescribe, []) ∧
    test.construct ["pgm"] (Except.ok optsExecSel) = some (stExecSel, []) :=
  ⟨(c3_mode_resolution "pgm" [] optsExecAll).1 rfl,
   (c3_mode_resolution "pgm" [] optsDesc).2.1 rfl rfl,
   (c3_mode_resolution "pgm" [] optsExecSel).2.2 ["a", "c"] rfl rfl rfl⟩

/-- Claim C4: in describe mode every run call prints the description line
plus a blank separator and returns; over a registration list this prints
one description line per test, in registration order, with no test object
constructed and no invoke called. -/
theorem c4_describe_mode (self : test) (ts : List (String × TestClass))
    (ds : List String)
    (hdesc : self.m_print_desc = true)
    (hds : List.Forall₂ (fun p d => p.2.desc = Except.ok d) ts ds) :
    (∀ T p_test_name d, T.desc = Except.ok d →
      self.run T p_test_name =
        (self, [Ev.out (descLine p_test_name d), Ev.out ""])) ∧
    test.runList self ts =
      (ts.zip ds).flatMap (fun q => [Ev.out (descLine q.1.1 q.2), Ev.out ""]) ∧
    Ev.ctorCall ∉ test.runList self ts ∧
    Ev.invokeCall ∉ test.runList self ts := by
  have hrun : ∀ T p_test_name d, T.desc = Except.ok d →
      self.run T p_test_name =
        (self, [Ev.out (descLine p_test_name d), Ev.out ""]) := by
    intro T n d h
    simp [test.run, hdesc, h]
  have hlist : test.runList self ts =
      (ts.zip ds).flatMap (fun q => [Ev.out (descLine q.1.1 q.2), Ev.out ""]) := by
    induction hds with
    | nil => simp [test.runList]
    | @cons p d ts2 ds2 hpd htail ih =>
      obtain ⟨n, T⟩ := p
      simp only [test.runList, hrun T n d hpd, List.zip_cons_cons,
        List.flatMap_cons, ih]
  refine ⟨hrun, hlist, ?_, ?_⟩ <;> rw [hlist] <;> simp [List.mem_flatMap]

/-- Witness for C4 at a concrete input: a describe-mode runner over two
registered tests. -/
theorem c4_describe_mode_witness :
    stDescribe.run tcOK "test_ok" =
      (stDescribe, [Ev.out (descLine "test_ok" "an ok test"), Ev.out ""]) ∧
    test.runList stDescribe [("test_ok", tcOK), ("test_fail", tcFalse)] =
      ([("test_ok", tcOK), ("test_fail", tcFalse)].zip
          ["an ok test", "a failing test"]).flatMap
        (fun q => [Ev.out (descLine q.1.1 q.2), Ev.out ""]) ∧
    Ev.ctorCall ∉ test.runList stDescribe [("test_ok", tcOK), ("test_fail", tcFalse)] ∧
    Ev.invokeCall ∉ test.runList stDescribe [("test_ok", tcOK), ("test_fail", tcFalse)] := by
  have h := c4_describe_mode stDescribe [("test_ok", tcOK), ("test_fail", tcFalse)]
    ["an ok test", "a failing test"] rfl
    (List.Forall₂.cons rfl (List.Forall₂.cons rfl List.Forall₂.nil))
  exact ⟨h.1 tcOK "test_ok" "an ok test" rfl, h.2.1, h.2.2.1, h.2.2.2⟩

/-- Claim C7: any successfully constructed runner has mutually exclusive
mode flags, its selection set is nonempty only in execute mode, and run
returns the state unchanged. -/
theorem c7_mode_invariant (argv : List String) (parseResult : Except String options)
    (st : test) (evs : List Ev)
    (h : test.construct argv parseResult = some (st, evs)) :
    ¬(st.m_execute_tests = true ∧ st.m_print_desc = true) ∧
    (st.m_tests_to_exec ≠ [] → st.m_execute_tests = true) ∧
    ∀ T p_test_name, (st.run T p_test_name).1 = st := by
  cases argv with
  | nil => simp [test.construct] at h
  | cons pgm rest =>
    cases parseResult with
    | error msg =>
      simp [test.construct] at h
      obtain ⟨h1, h2⟩ := h
      subst h1
      exact ⟨by simp, by simp, fun T n => test.run_fst _ T n⟩
    | ok opts =>
      cases hb1 : opts.get_bool_param "exec" with
      | true =>
        simp [test.construct, hb1] at h
        obtain ⟨h1, h2⟩ := h
        subst h1
        exact ⟨by simp, by simp, fun T n => test.run_fst _ T n⟩
      | false =>
        cases hb2 : opts.get_bool_param "desc" with
        | true =>
          simp [test.construct, hb1, hb2] at h
          obtain ⟨h1, h2⟩ := h
          subst h1
          exact ⟨by simp, by simp, fun T n => test.run_fst _ T n⟩
        | false =>
          cases hset : opts.get_set_param "exec" with
          | none =>
            simp [test.construct, hb1, hb2, hset] at h
            obtain ⟨h1, h2⟩ := h
            subst h1
            exact ⟨by simp, by simp, fun T n => test.run_fst _ T n⟩
          | some l =>
            simp [test.construct, hb1, hb2, hset] at h
            obtain ⟨h1, h2⟩ := h
            subst h1
            exact ⟨by simp, fun _ => rfl, fun T n => test.run_fst _ T n⟩

/-- Witness for C7 at a concrete input: the execute-all runner built from
a boolean exec flag. -/
theorem c7_mode_invariant_witness :
    ¬(stExecAll.m_execute_tests = true ∧ stExecAll.m_print_desc = true) ∧
    (stExecAll.m_tests_to_exec ≠ [] → stExecAll.m_execute_tests = true) ∧
    (stExecAll.run tcOK "a").1 = stExecAll := by
  have h := c7_mode_invariant ["pgm"] (Except.ok optsExecAll) stExecAll [] rfl
  exact ⟨h.1, h.2.1, h.2.2 tcOK "a"⟩
